import Mathlib

/-!
Verification of the Exo voice-assistant core against its specification.

The Python sources are embedded shallowly:
* text is `List Char`; Python `str.lower`, `str.strip`, `str.split`, `in`
  (substring) and `str.find` are modelled char-by-char (`pyLower`, `pyStrip`,
  `pySplit`, `containsSub`, `pyFind`), for the ASCII range plus the accented
  letters of the French alphabet that appear in the repository's data;
* real-valued quantities (RMS energies, thresholds, durations, ratios) are `ℚ`;
* fallible calls (the Whisper engine, stream reads) are `Except`/`Option`
  valued, and the audio stream is a finite list of reads.
-/

namespace Exo

/-! ## Python string primitives -/

/-- Whitespace characters stripped by Python `str.strip()` / split on by
`str.split()` (ASCII range). -/
def pyIsSpace (c : Char) : Bool :=
  c = ' ' || c = '\t' || c = '\n' || c = '\x0d' || c = '\x0b' || c = '\x0c'

/-- Accented letters of the French alphabet (both cases), the non-ASCII
letters that occur in the repository's wake-word and artifact data.  Python's
`str.lower` and `\w` treat them as letters. -/
def FRENCH_LETTERS : List Char :=
  ['à', 'â', 'ä', 'æ', 'ç', 'é', 'è', 'ê', 'ë', 'î', 'ï', 'ô', 'ö', 'œ',
   'ù', 'û', 'ü', 'ÿ', 'À', 'Â', 'Ä', 'Æ', 'Ç', 'É', 'È', 'Ê', 'Ë', 'Î',
   'Ï', 'Ô', 'Ö', 'Œ', 'Ù', 'Û', 'Ü', 'Ÿ']

/-- Python `str.lower` on one character: ASCII uppercase and the uppercase
French accented letters are mapped to lowercase, everything else is kept. -/
def pyLowerChar (c : Char) : Char :=
  if 65 ≤ c.toNat ∧ c.toNat ≤ 90 then Char.ofNat (c.toNat + 32)
  else if c = 'À' then 'à' else if c = 'Â' then 'â' else if c = 'Ä' then 'ä'
  else if c = 'Æ' then 'æ' else if c = 'Ç' then 'ç' else if c = 'É' then 'é'
  else if c = 'È' then 'è' else if c = 'Ê' then 'ê' else if c = 'Ë' then 'ë'
  else if c = 'Î' then 'î' else if c = 'Ï' then 'ï' else if c = 'Ô' then 'ô'
  else if c = 'Ö' then 'ö' else if c = 'Œ' then 'œ' else if c = 'Ù' then 'ù'
  else if c = 'Û' then 'û' else if c = 'Ü' then 'ü' else if c = 'Ÿ' then 'ÿ'
  else c

/-- Python `str.lower`. -/
def pyLower (s : List Char) : List Char := s.map pyLowerChar

/-- Python `str.strip()`: remove whitespace from both ends. -/
def pyStrip (s : List Char) : List Char :=
  ((s.dropWhile pyIsSpace).reverse.dropWhile pyIsSpace).reverse

/-- Python `str.split()` with no argument: maximal runs of non-whitespace,
empty pieces discarded. -/
def pySplit : List Char → List (List Char)
  | [] => []
  | c :: rest =>
    let r := pySplit rest
    if pyIsSpace c then r
    else
      match rest with
      | [] => [[c]]
      | c2 :: _ =>
        if pyIsSpace c2 then [c] :: r
        else
          match r with
          | [] => [[c]]
          | w :: ws => (c :: w) :: ws

/-- Does `needle` occur at the head of `hay`? -/
def matchesAt : List Char → List Char → Bool
  | [], _ => true
  | _ :: _, [] => false
  | a :: as, b :: bs => a = b && matchesAt as bs

/-- Python substring test `needle in hay`. -/
def containsSub (needle hay : List Char) : Bool :=
  match hay with
  | [] => needle.isEmpty
  | _ :: t => matchesAt needle hay || containsSub needle t

/-- Python `hay.find(needle)`: index of the first occurrence (`none` models
the `-1` result). -/
def pyFind (hay needle : List Char) : Option Nat :=
  match hay with
  | [] => if needle.isEmpty then some 0 else none
  | _ :: t =>
    if matchesAt needle hay then some 0
    else (pyFind t needle).map (· + 1)

/-- Python's regex class `\w` (used by `re.sub(r'[^\w]', '', ...)` in
`is_hallucination`): letters, digits and the underscore.  Note that the
underscore IS a `\w` character even though it is not alphanumeric. -/
def isWordChar (c : Char) : Bool :=
  c.isAlphanum || c = '_' || FRENCH_LETTERS.contains c

/-- An alphanumeric character (letters and digits only, no underscore) —
this is what the specification's phrase "alnum-only character count" denotes. -/
def isAlnumChar (c : Char) : Bool :=
  c.isAlphanum || FRENCH_LETTERS.contains c

/-- Python `int(q)` for a nonnegative rational (truncation). -/
def pyInt (q : ℚ) : Nat := ⌊q⌋.toNat

/-! ## Data of `src/audio/wake_word.py` -/

/-- `WAKE_WORDS` (wake_word.py, lines 26-35), in source order, duplicates
included. -/
def WAKE_WORDS : List (List Char) :=
  ["exo".data, "écho".data, "echo".data, "expo".data, "ego".data, "exc".data,
   "exot".data, "x.o".data, "x o".data, "exau".data, "exeau".data,
   "exos".data, "exho".data,
   "exeau".data, "esso".data, "ekso".data, "ex-o".data, "axo".data,
   "hecho".data,
   "ex o".data, "ex-eau".data, " exo".data, "exo ".data, "ecso".data,
   "et que".data, "èque".data, "ek-o".data, "l\x27exo".data,
   "l\x27écho".data,
   "exa".data, "eko".data, "exau".data, "equo".data]

/-- `WHISPER_HALLUCINATIONS` (wake_word.py, lines 52-84). -/
def WHISPER_HALLUCINATIONS : List (List Char) :=
  ["sous-titres".data, "sous-titrage".data, "sous-titré".data,
   "amara.org".data,
   "merci d\x27avoir regardé".data, "merci de votre attention".data,
   "traduisez".data, "subscribe".data, "abonnez".data,
   "...".data, "…".data, "♪".data, "🎵".data,
   "fin de la vidéo".data, "fin de votre vidéo".data,
   "contributions de".data,
   "[musique]".data, "[applaudissements]".data, "[rires]".data,
   "je vous invite".data,
   "visage de sauvage".data, "visage de la vise".data,
   "caractéristiques".data,
   "je vous remercie".data,
   "l\x27économie de la".data,
   "il y a un visage".data,
   "la fin de votre".data,
   "je suis venu".data,
   "c\x27est le cas de".data,
   "il est au courant".data,
   "alors qu\x27on va".data,
   "s\x27il vous plaît".data,
   "faire une autre vidéo".data,
   "c\x27est pas le truc".data,
   "l\x27écran".data,
   "l\x27exil".data,
   "à protection".data,
   "au-delà".data,
   "c\x27est la vie".data,
   "c\x27est une bonne".data,
   "si la vie".data]

/-! ## VAD configuration constants (wake_word.py, lines 39-49, and
streaming_stt.py, lines 41-42) -/

def DEFAULT_VOICE_THRESHOLD : ℚ := 300
def DEFAULT_SILENCE_CHUNKS : Nat := 5
def DEFAULT_MIN_UTTERANCE_SEC : ℚ := 0.5
def DEFAULT_MAX_UTTERANCE_SEC : ℚ := 10.0
def DEFAULT_MIN_VOICE_CHUNKS : Nat := 5

/-- `ADAPTIVE_MULTIPLIER` — the environment override defaults to `"3.0"`;
we embed the default. -/
def ADAPTIVE_MULTIPLIER : ℚ := 3.0
def NOISE_FLOOR_SAMPLES : Nat := 30
def SILENCE_WINDOW_SIZE : Nat := 15
def SILENCE_END_RATIO : ℚ := 0.20

def TRANSCRIBE_INTERVAL_SEC : ℚ := 1.0
def REUSE_VOICE_THRESHOLD : Nat := 6

/-! ## `is_hallucination` (wake_word.py, lines 95-127) -/

/-- `is_hallucination(text, audio_duration_sec)`.  Mirrors the source: the
lowered, stripped text is reduced to its `\w` characters (fewer than 3 ⇒
hallucination); then the artifact-substring check; then, for audio longer
than 1 s, the words-per-second ceiling of 6; then the unique-word ratio
check for 6+ words. -/
def is_hallucination (text : List Char) (audio_duration_sec : ℚ) : Bool :=
  let text_lower := pyStrip (pyLower text)
  let clean := text_lower.filter isWordChar
  if clean.length < 3 then true
  else if WHISPER_HALLUCINATIONS.any (fun h => containsSub h text_lower) then true
  else
    let ratioFlag : Bool :=
      if audio_duration_sec > 1 then
        let word_count := (pySplit text_lower).length
        decide ((word_count : ℚ) / audio_duration_sec > 6)
      else false
    if ratioFlag then true
    else
      let words := pySplit text_lower
      if words.length ≥ 6 ∧ (words.dedup.length : ℚ) / (words.length : ℚ) < 1/2 then true
      else false

/-! ## `contains_wake_word` and `extract_command_after_wake`
(wake_word.py, lines 130-166) -/

/-- `contains_wake_word(text)`: hallucinations (checked with the default
duration `0.0`) never contain the wake word; otherwise any wake-word variant
occurring as a substring of the lowered, stripped text fires. -/
def contains_wake_word (text : List Char) : Bool :=
  if is_hallucination text 0 then false
  else
    let text_lower := pyStrip (pyLower text)
    WAKE_WORDS.any (fun w => containsSub w text_lower)

/-- The best-match loop of `extract_command_after_wake`: scan `WAKE_WORDS`
in order, remembering the first `find` hit and replacing it whenever a
strictly longer variant also occurs.  Returns `(best_idx, best_len)`. -/
def bestWakeMatch (text_lower : List Char) : Option (Nat × Nat) :=
  WAKE_WORDS.foldl
    (fun best w =>
      match pyFind text_lower w with
      | none => best
      | some idx =>
        match best with
        | none => some (idx, w.length)
        | some (_, best_len) =>
          if w.length > best_len then some (idx, w.length) else best)
    none

/-- The characters removed by `after.lstrip(" ,.:;!?·\t\n")`. -/
def LSTRIP_CHARS : List Char := [' ', ',', '.', ':', ';', '!', '?', '·', '\t', '\n']

/-- `extract_command_after_wake(text)`: everything after the longest matching
wake-word variant, with leading punctuation stripped; the stripped original
text if no variant matches. -/
def extract_command_after_wake (text : List Char) : List Char :=
  let text_clean := pyStrip text
  let text_lower := pyLower text_clean
  match bestWakeMatch text_lower with
  | none => text_clean
  | some (best_idx, best_len) =>
    let after := text_clean.drop (best_idx + best_len)
    after.dropWhile (fun c => LSTRIP_CHARS.contains c)

/-- The dispatch decision of `ExoListener.start` (listener.py, line 312):
a command of at least 2 whitespace-separated tokens is dispatched
immediately; anything shorter triggers the bounded follow-up capture. -/
def listenerDispatchesImmediately (command : List Char) : Bool :=
  decide ((pySplit command).length ≥ 2)

/-! ## Noise-floor calibration and the adaptive threshold
(wake_word.py, lines 169-202) -/

/-- The module-level `_noise_floor` / `_noise_calibrated` globals. -/
structure NoiseState where
  noise_floor : ℚ
  noise_calibrated : Bool
deriving DecidableEq

/-- Insert into a sorted list (ascending). -/
def insertSorted (x : ℚ) : List ℚ → List ℚ
  | [] => [x]
  | y :: ys => if x ≤ y then x :: y :: ys else y :: insertSorted x ys

/-- Sort a list of rationals ascending (insertion sort). -/
def sortQ (l : List ℚ) : List ℚ := l.foldr insertSorted []

/-- `np.median`: middle element of the sorted list for odd length, mean of
the two middle elements for even length. -/
def npMedian (l : List ℚ) : ℚ :=
  let s := sortQ l
  let n := s.length
  if n % 2 = 1 then s.getD (n / 2) 0
  else (s.getD (n / 2 - 1) 0 + s.getD (n / 2) 0) / 2

/-- `calibrate_noise_floor(stream, ...)`.  Each stream read either fails
(`none`, skipped — the bare `except: continue`) or yields a chunk, modelled
by its RMS energy.  With at least one successful read the noise floor becomes
the median energy and the calibrated flag is set; otherwise the state is
unchanged. -/
def calibrate_noise_floor (reads : List (Option ℚ)) (st : NoiseState) : NoiseState :=
  let energies := reads.filterMap id
  if energies.isEmpty then st
  else { noise_floor := npMedian energies, noise_calibrated := true }

/-- `get_adaptive_threshold(fixed_threshold)`: with a calibrated, positive
noise floor, the adaptive value `noise_floor * ADAPTIVE_MULTIPLIER` clamped
into `[fixed*0.5, fixed*2.5]`; otherwise the fixed threshold itself. -/
def get_adaptive_threshold (st : NoiseState) (fixed_threshold : ℚ) : ℚ :=
  if st.noise_calibrated = true ∧ st.noise_floor > 0 then
    max (min (st.noise_floor * ADAPTIVE_MULTIPLIER) (fixed_threshold * 2.5))
      (fixed_threshold * 0.5)
  else fixed_threshold

/-! ## `capture_utterance` (wake_word.py, lines 205-306)

The PyAudio stream is a finite list of reads; each read either raises
(`none` — the loop sleeps and continues) or yields a chunk.  A chunk is its
PCM16 samples together with its RMS energy: `rms_energy` computes a real
square root, and the loop only ever compares it with the threshold, so the
energy is carried as a rational field. -/

/-- One stream read's payload: PCM16 samples plus the chunk's RMS energy. -/
structure Chunk where
  data : List Int
  energy : ℚ
deriving DecidableEq

/-- The parameters of `capture_utterance` / `streaming_capture_and_transcribe`,
with the source's defaults. -/
structure CapParams where
  sample_rate : ℚ := 16000
  chunk_size : ℚ := 1024
  voice_threshold : ℚ := DEFAULT_VOICE_THRESHOLD
  silence_chunks_end : Nat := DEFAULT_SILENCE_CHUNKS
  min_sec : ℚ := DEFAULT_MIN_UTTERANCE_SEC
  max_sec : ℚ := DEFAULT_MAX_UTTERANCE_SEC
  timeout_sec : Option ℚ := none
deriving DecidableEq

/-- `max_chunks = int(max_sec * sample_rate / chunk_size)`. -/
def maxChunks (p : CapParams) : Nat :=
  pyInt (p.max_sec * p.sample_rate / p.chunk_size)

/-- `timeout_chunks = int(timeout_sec * sample_rate / chunk_size) if timeout_sec
else None` — a `timeout_sec` of `0` is falsy and yields `None`. -/
def timeoutChunks (p : CapParams) : Option Nat :=
  match p.timeout_sec with
  | none => none
  | some t => if t = 0 then none else some (pyInt (t * p.sample_rate / p.chunk_size))

/-- `if timeout_chunks and wait_chunks >= timeout_chunks` — Python truthiness:
a `timeout_chunks` of `None` OR `0` disables the timeout check entirely. -/
def timeoutHit (tc : Option Nat) (wait_chunks : Nat) : Bool :=
  match tc with
  | none => false
  | some t => decide (0 < t ∧ t ≤ wait_chunks)

/-- Append to the `deque(maxlen=SILENCE_WINDOW_SIZE)` sliding window. -/
def pushWindow (w : List Bool) (b : Bool) : List Bool :=
  let w2 := w ++ [b]
  if SILENCE_WINDOW_SIZE < w2.length then w2.drop (w2.length - SILENCE_WINDOW_SIZE) else w2

/-- `sum(recent_voice) / len(recent_voice)`. -/
def voiceRatio (w : List Bool) : ℚ :=
  ((w.filter id).length : ℚ) / (w.length : ℚ)

/-- The local state of the capture loop. -/
structure CapState where
  buffer : List Int
  silent_count : Nat
  voice_detected : Bool
  voice_chunks : Nat
  total_chunks : Nat
  wait_chunks : Nat
  recent_voice : List Bool
deriving DecidableEq

def initCapState : CapState :=
  { buffer := [], silent_count := 0, voice_detected := false,
    voice_chunks := 0, total_chunks := 0, wait_chunks := 0, recent_voice := [] }

/-- The accumulating-phase state update for one frame (wake_word.py, lines
274-285): append the frame, bump the total, classify the frame against the
effective threshold (`energy >= effective_threshold`), push the verdict onto
the sliding window, reset or bump the consecutive-silence counter, and bump
the voiced-chunk counter on a voiced frame. -/
def accumulate (st : CapState) (ch : Chunk) (eff : ℚ) : CapState :=
  let is_voice_chunk : Bool := ch.energy ≥ eff
  { buffer := st.buffer ++ ch.data,
    silent_count := if is_voice_chunk then 0 else st.silent_count + 1,
    voice_detected := st.voice_detected,
    voice_chunks := if is_voice_chunk then st.voice_chunks + 1 else st.voice_chunks,
    total_chunks := st.total_chunks + 1,
    wait_chunks := st.wait_chunks,
    recent_voice := pushWindow st.recent_voice is_voice_chunk }

/-- Result of one iteration of the capture loop body. -/
inductive CapStepRes where
  | next (st : CapState)
  | timeout
  | sealed (st : CapState)
deriving DecidableEq

/-- One iteration of the `while` body of `capture_utterance` (lines 251-295):
failed reads are skipped; below-threshold frames in the waiting phase bump
`wait_chunks` and check the (truthy) timeout; a frame above the threshold
seeds the buffer; in the accumulating phase the frame is appended, the
counters and the sliding window updated, and the two end conditions tested —
`silent_count` reaching `silence_chunks_end` on a silent frame, or a full
window with voice ratio below `SILENCE_END_RATIO`, the latter only once
`voice_chunks` has reached `DEFAULT_MIN_VOICE_CHUNKS`.  Like the source,
which computes `timeout_chunks` once before the loop (line 246), the step
takes the precomputed `toc`. -/
def capStep (p : CapParams) (eff : ℚ) (toc : Option Nat) (st : CapState)
    (read : Option Chunk) : CapStepRes :=
  match read with
  | none => .next st
  | some ch =>
    if st.voice_detected = false then
      if ch.energy > eff then
        .next { st with voice_detected := true, buffer := ch.data,
                        silent_count := 0, voice_chunks := 1, total_chunks := 1 }
      else
        let wait := st.wait_chunks + 1
        if timeoutHit toc wait then .timeout
        else .next { st with wait_chunks := wait }
    else
      let st2 := accumulate st ch eff
      if ¬ (ch.energy ≥ eff) ∧ p.silence_chunks_end ≤ st2.silent_count then .sealed st2
      else if DEFAULT_MIN_VOICE_CHUNKS ≤ st2.voice_chunks ∧
              SILENCE_WINDOW_SIZE ≤ st2.recent_voice.length ∧
              voiceRatio st2.recent_voice < SILENCE_END_RATIO then .sealed st2
      else .next st2

/-- Whether a step result seals the utterance (exits the loop via `break`). -/
def CapStepRes.isSealed : CapStepRes → Bool
  | .sealed _ => true
  | _ => false

/-- The post-loop checks (lines 297-306): discard the buffer if the duration
(`len(buffer)` bytes over `sample_rate * 2`) is below `min_sec` or fewer than
`DEFAULT_MIN_VOICE_CHUNKS` voiced chunks were seen. -/
def finalizeCapture (p : CapParams) (st : CapState) : List Int :=
  let duration : ℚ := (2 * st.buffer.length : ℚ) / (p.sample_rate * 2)
  if duration < p.min_sec then []
  else if st.voice_chunks < DEFAULT_MIN_VOICE_CHUNKS then []
  else st.buffer

/-- Outcome of running the capture loop on a finite list of reads:
either the function returned (`b""` encoded as `[]`), or the read list was
exhausted while the loop was still going. -/
inductive CapOutcome where
  | returned (audio : List Int)
  | running (st : CapState)
deriving DecidableEq

/-- The `while total_chunks < max_chunks` loop of `capture_utterance`,
driven by a finite list of reads; `maxc` and `toc` are the `max_chunks` and
`timeout_chunks` values the source computes before entering the loop
(lines 245-246). -/
def capRun (p : CapParams) (eff : ℚ) (toc : Option Nat) (maxc : Nat) :
    List (Option Chunk) → CapState → CapOutcome
  | [], st =>
    if st.total_chunks < maxc then .running st
    else .returned (finalizeCapture p st)
  | r :: rest, st =>
    if st.total_chunks < maxc then
      match capStep p eff toc st r with
      | .timeout => .returned []
      | .sealed st2 => .returned (finalizeCapture p st2)
      | .next st2 => capRun p eff toc maxc rest st2
    else .returned (finalizeCapture p st)

/-- `capture_utterance(stream, ...)`: when the noise floor is not yet
calibrated the first `NOISE_FLOOR_SAMPLES` reads feed the calibration, then
the effective threshold is derived and the capture loop runs on the
remaining reads. -/
def capture_utterance (ns : NoiseState) (p : CapParams)
    (reads : List (Option Chunk)) : CapOutcome :=
  let ns2 := if ns.noise_calibrated then ns
    else calibrate_noise_floor
      ((reads.take NOISE_FLOOR_SAMPLES).map (Option.map Chunk.energy)) ns
  let loopReads := if ns.noise_calibrated then reads
    else reads.drop NOISE_FLOOR_SAMPLES
  let eff := get_adaptive_threshold ns2 p.voice_threshold
  capRun p eff (timeoutChunks p) (maxChunks p) loopReads initCapState

/-! ## `streaming_capture_and_transcribe` (streaming_stt.py, lines 61-254)

The Whisper engine (`whisper_model.transcribe`, wrapped by
`_transcribe_buffer`) is a function from PCM16 samples to `Except Unit text`:
`.error ()` models the call raising.  A background transcription future is
modelled by the snapshot it was submitted with — its eventual value is the
engine applied to that snapshot; an external schedule decides at which loop
iterations a pending future reports `done()`. -/

/-- The transcription engine: `whisper_model.transcribe` joined over segments,
possibly raising. -/
def SttEngine := List Int → Except Unit (List Char)

/-- `_transcribe_buffer(whisper_model, audio_bytes)` (lines 45-58): buffers
shorter than 4800 samples (0.3 s) yield `""` without invoking the engine;
otherwise the engine's outcome (text or exception) is the outcome. -/
def transcribeBuffer (engine : SttEngine) (audio : List Int) : Except Unit (List Char) :=
  if audio.length < 4800 then .ok []
  else engine audio

/-- The loop state of `streaming_capture_and_transcribe`: the VAD fields of
`CapState` plus the streaming-STT fields (lines 104-120).  `pending_snapshot`
is the buffer snapshot held by the in-flight future (`none` = no pending
future); `last_submit_offset` is in bytes, as in the source. -/
structure StreamState where
  buffer : List Int
  silent_count : Nat
  voice_detected : Bool
  voice_chunks : Nat
  total_chunks : Nat
  wait_chunks : Nat
  recent_voice : List Bool
  pending_snapshot : Option (List Int)
  last_transcript : List Char
  last_submit_offset : Nat
  voice_since_submit : Nat
deriving DecidableEq

def initStreamState : StreamState :=
  { buffer := [], silent_count := 0, voice_detected := false,
    voice_chunks := 0, total_chunks := 0, wait_chunks := 0, recent_voice := [],
    pending_snapshot := none, last_transcript := [], last_submit_offset := 0,
    voice_since_submit := 0 }

/-- Reading the local variable `duration` inside the capture loop.  In the
source, `duration` is first assigned only AFTER the loop (line 197), yet the
in-loop completion handler (line 188) evaluates `is_hallucination(result,
duration)`; in Python this lookup of a not-yet-assigned local raises
`UnboundLocalError`. -/
def inLoopDuration : Except Unit ℚ := .error ()

/-- The condition `result and not is_hallucination(result, duration)` of the
in-loop completion handler (line 188): an empty `result` short-circuits;
a non-empty one forces the `duration` lookup, which raises. -/
def inLoopKeep (result : List Char) : Except Unit Bool :=
  if result.isEmpty then .ok false
  else do
    let d ← inLoopDuration
    pure (!is_hallucination result d)

/-- The non-blocking completion poll (lines 185-192): on a completed future,
`result()` and the keep-condition are evaluated under `try/except Exception:
pass`, so both a failed job and the `UnboundLocalError` raised by the
`duration` lookup leave `last_transcript` untouched; the future is cleared
either way. -/
def pollCompleted (st : StreamState) (jobResult : Except Unit (List Char)) :
    StreamState :=
  let st2 :=
    match jobResult with
    | .error _ => st
    | .ok result =>
      match inLoopKeep result with
      | .error _ => st
      | .ok true => { st with last_transcript := result }
      | .ok false => st
  { st2 with pending_snapshot := none }

/-- `interval_bytes = int(TRANSCRIBE_INTERVAL_SEC * sample_rate * 2)`. -/
def intervalBytes (p : CapParams) : Nat :=
  pyInt (TRANSCRIBE_INTERVAL_SEC * p.sample_rate * 2)

/-- The accumulating-phase state update of the streaming loop (streaming_stt,
lines 147-159): as `accumulate`, plus the `voice_since_submit` counter bumped
on voiced frames. -/
def streamAccumulate (st : StreamState) (ch : Chunk) (eff : ℚ) : StreamState :=
  let is_voice_chunk : Bool := ch.energy ≥ eff
  { st with
    buffer := st.buffer ++ ch.data,
    silent_count := if is_voice_chunk then 0 else st.silent_count + 1,
    voice_chunks := if is_voice_chunk then st.voice_chunks + 1 else st.voice_chunks,
    total_chunks := st.total_chunks + 1,
    recent_voice := pushWindow st.recent_voice is_voice_chunk,
    voice_since_submit := if is_voice_chunk then st.voice_since_submit + 1
                          else st.voice_since_submit }

/-- Result of one iteration of the streaming capture loop body. -/
inductive StreamStepRes where
  | next (st : StreamState)
  | timeout
  | sealed (st : StreamState)
deriving DecidableEq

/-- One iteration of the `while` body of `streaming_capture_and_transcribe`
(lines 123-194).  Identical VAD logic to `capStep` (plus the
`voice_since_submit` counter), followed — when no end condition fired — by
the submission check (at least `interval_bytes` new bytes, no pending future,
at least `DEFAULT_MIN_VOICE_CHUNKS` voiced chunks; the snapshot is capped to
the trailing 8 s) and the non-blocking completion poll.  `pollNow` is the
external schedule's verdict on `pending_future.done()` for this iteration.
Like the source, which computes `timeout_chunks` (line 111) and
`interval_bytes` (line 119) once before the loop, the step takes the
precomputed `toc` and `ib`; `msb` is the constant `max_stt_bytes =
int(8.0 * sample_rate * 2)` of line 175. -/
def streamStep (p : CapParams) (eff : ℚ) (toc : Option Nat) (ib msb : Nat)
    (engine : SttEngine)
    (st : StreamState) (read : Option Chunk) (pollNow : Bool) : StreamStepRes :=
  match read with
  | none => .next st
  | some ch =>
    if st.voice_detected = false then
      if ch.energy > eff then
        .next { st with voice_detected := true, buffer := ch.data,
                        silent_count := 0, voice_chunks := 1, total_chunks := 1,
                        voice_since_submit := 1 }
      else
        let wait := st.wait_chunks + 1
        if timeoutHit toc wait then .timeout
        else .next { st with wait_chunks := wait }
    else
      let st2 := streamAccumulate st ch eff
      if ¬ (ch.energy ≥ eff) ∧ p.silence_chunks_end ≤ st2.silent_count then .sealed st2
      else if DEFAULT_MIN_VOICE_CHUNKS ≤ st2.voice_chunks ∧
              SILENCE_WINDOW_SIZE ≤ st2.recent_voice.length ∧
              voiceRatio st2.recent_voice < SILENCE_END_RATIO then .sealed st2
      else
        let new_bytes := 2 * st2.buffer.length - st2.last_submit_offset
        let st3 :=
          if ib ≤ new_bytes ∧ st2.pending_snapshot = none ∧
             DEFAULT_MIN_VOICE_CHUNKS ≤ st2.voice_chunks then
            let snapshot :=
              if msb < 2 * st2.buffer.length then
                st2.buffer.drop (st2.buffer.length - msb / 2)
              else st2.buffer
            { st2 with pending_snapshot := some snapshot,
                       last_submit_offset := 2 * st2.buffer.length,
                       voice_since_submit := 0 }
          else st2
        let st4 :=
          match st3.pending_snapshot with
          | some snap =>
            if pollNow then pollCompleted st3 (transcribeBuffer engine snap) else st3
          | none => st3
        .next st4

/-- `duration = len(buffer) / (sample_rate * 2)` (line 197), with
`len(buffer)` in bytes = two per sample. -/
def streamDuration (p : CapParams) (st : StreamState) : ℚ :=
  (2 * st.buffer.length : ℚ) / (p.sample_rate * 2)

/-- Awaiting the still-pending future at seal time (lines 212-219): its
result, when it arrives without raising and is non-empty and not a
hallucination for the sealed duration, replaces `last_transcript`;
exceptions are swallowed. -/
def awaitPending (engine : SttEngine) (st : StreamState) (duration : ℚ) :
    List Char :=
  match st.pending_snapshot with
  | none => st.last_transcript
  | some snap =>
    match transcribeBuffer engine snap with
    | .error _ => st.last_transcript
    | .ok result =>
      if result ≠ [] ∧ is_hallucination result duration = false then result
      else st.last_transcript

/-- The timing info returned at seal time, plus (as instrumentation for the
reuse claim) `final_calls`, the number of full-buffer transcriptions that
were run over the sealed buffer — `0` on the reuse path, `1` otherwise. -/
structure StreamTiming where
  audio_sec : ℚ
  reused : Bool
  final_calls : Nat
deriving DecidableEq

/-- Everything after the capture loop of `streaming_capture_and_transcribe`
(lines 196-254): the minimum-duration / minimum-voiced-chunk checks (empty
result, empty timing dict), awaiting a pending future, then the reuse
decision — reuse the (truthy) `last_transcript` when fewer than
`REUSE_VOICE_THRESHOLD` voiced chunks arrived since the last submission;
otherwise run one full-buffer transcription (whose exception, unlike every
other transcription call here, is NOT caught) and fall back to
`last_transcript` when its result is empty or a hallucination. -/
def sealFinish (p : CapParams) (engine : SttEngine) (st : StreamState) :
    Except Unit (List Char × List Int × Option StreamTiming) :=
  let duration := streamDuration p st
  if duration < p.min_sec ∨ st.voice_chunks < DEFAULT_MIN_VOICE_CHUNKS then
    .ok ([], [], none)
  else
    let last_transcript := awaitPending engine st duration
    if last_transcript ≠ [] ∧ st.voice_since_submit < REUSE_VOICE_THRESHOLD then
      .ok (last_transcript, st.buffer,
           some { audio_sec := duration, reused := true, final_calls := 0 })
    else
      match transcribeBuffer engine st.buffer with
      | .error e => .error e
      | .ok t =>
        let transcript :=
          if t = [] ∨ is_hallucination t duration = true then last_transcript else t
        .ok (transcript, st.buffer,
             some { audio_sec := duration, reused := false, final_calls := 1 })

/-- Outcome of the streaming capture on a finite list of reads. -/
inductive StreamOutcome where
  | returned (transcript : List Char) (audio : List Int) (timing : Option StreamTiming)
  | running (st : StreamState)
deriving DecidableEq

/-- The `while total_chunks < max_chunks` loop of
`streaming_capture_and_transcribe`, followed by `sealFinish` on loop exit.
Each element of `reads` carries the stream read and the schedule's
`done()` verdict for that iteration; `toc`, `ib`, `msb` and `maxc` are the
precomputed `timeout_chunks`, `interval_bytes`, `max_stt_bytes` and
`max_chunks`. -/
def streamRun (p : CapParams) (eff : ℚ) (toc : Option Nat) (ib msb maxc : Nat)
    (engine : SttEngine) :
    List (Option Chunk × Bool) → StreamState → Except Unit StreamOutcome
  | [], st =>
    if st.total_chunks < maxc then .ok (.running st)
    else (sealFinish p engine st).map fun r => .returned r.1 r.2.1 r.2.2
  | (read, pollNow) :: rest, st =>
    if st.total_chunks < maxc then
      match streamStep p eff toc ib msb engine st read pollNow with
      | .timeout => .ok (.returned [] [] none)
      | .sealed st2 => (sealFinish p engine st2).map fun r => .returned r.1 r.2.1 r.2.2
      | .next st2 => streamRun p eff toc ib msb maxc engine rest st2
    else (sealFinish p engine st).map fun r => .returned r.1 r.2.1 r.2.2

/-- `streaming_capture_and_transcribe`: calibrate if needed, derive the
effective threshold and the loop constants, run the loop, finish at seal. -/
def streaming_capture_and_transcribe (ns : NoiseState) (p : CapParams)
    (engine : SttEngine) (reads : List (Option Chunk × Bool)) :
    Except Unit StreamOutcome :=
  let ns2 := if ns.noise_calibrated then ns
    else calibrate_noise_floor
      ((reads.take NOISE_FLOOR_SAMPLES).map (fun r => Option.map Chunk.energy r.1)) ns
  let loopReads := if ns.noise_calibrated then reads
    else reads.drop NOISE_FLOOR_SAMPLES
  let eff := get_adaptive_threshold ns2 p.voice_threshold
  streamRun p eff (timeoutChunks p) (intervalBytes p)
    (pyInt (8.0 * p.sample_rate * 2)) (maxChunks p) engine loopReads initStreamState

/-! ## `AssistantCore` (core.py) — the session orchestrator -/

/-- `AssistantState` (core.py, lines 22-28). -/
inductive AssistantState where
  | idle | listening | processing | responding | error
deriving DecidableEq

/-- `AudioRoom` (core.py, lines 31-35). -/
inductive AudioRoom where
  | pi_zero | pi_5 | unknown
deriving DecidableEq

/-- `CommandContext` (core.py, lines 48-55); the `datetime` timestamp is a
rational. -/
structure CommandContext where
  user_input : List Char
  room : AudioRoom
  timestamp : ℚ
  session_id : List Char
  confidence : ℚ
deriving DecidableEq

/-- The orchestrator fields relevant to session accounting
(`AssistantCore.__init__`, lines 61-88): the state-machine state, the
`active_sessions` dict (insertion-ordered association list) and the
`max_concurrent_sessions` configuration value. -/
structure CoreState where
  state : AssistantState
  active_sessions : List (List Char × CommandContext)
  max_concurrent_sessions : Nat
deriving DecidableEq

/-- The orchestrator after `__init__`. -/
def initCore : CoreState :=
  { state := .idle, active_sessions := [], max_concurrent_sessions := 2 }

/-- Python dict assignment `d[k] = v` on an insertion-ordered association
list: replace in place when the key exists, append otherwise. -/
def dictInsert (m : List (List Char × CommandContext)) (k : List Char)
    (v : CommandContext) : List (List Char × CommandContext) :=
  if m.any (fun kv => kv.1 = k) then
    m.map (fun kv => if kv.1 = k then (k, v) else kv)
  else m ++ [(k, v)]

/-- `AssistantCore._on_text_input` (core.py, lines 304-314): build a
`CommandContext`, store it under its session id in `active_sessions`
unconditionally, and switch the state machine to `PROCESSING`.  No check
against `max_concurrent_sessions` is made. -/
def on_text_input (core : CoreState) (text : List Char) (room : AudioRoom)
    (session_id : List Char) (now : ℚ) : CoreState :=
  { core with
      active_sessions := dictInsert core.active_sessions session_id
        { user_input := text, room := room, timestamp := now,
          session_id := session_id, confidence := 1 },
      state := .processing }

/-- The session-creating tail of one `_audio_processing_loop` iteration
(core.py, lines 200-214): after a frame is pulled from the priority queue and
transcribed, a non-empty transcript is stored as a new `CommandContext` in
`active_sessions` — again with no check against `max_concurrent_sessions`
(an empty transcript just continues the loop). -/
def audioLoopStore (core : CoreState) (transcript : List Char) (room : AudioRoom)
    (session_id : List Char) (now : ℚ) : CoreState :=
  if transcript = [] then core
  else
    { core with
        active_sessions := dictInsert core.active_sessions session_id
          { user_input := transcript, room := room, timestamp := now,
            session_id := session_id, confidence := 0.95 } }

/-! ## Specification-side predicates

These two definitions follow the WORDS of the specification (§4.4 and the
claims derived from it), to be compared with `is_hallucination` above, which
is translated from the source. -/

/-- The hallucination filter exactly as the claim words it: "the alnum-only
character count of the lowercased text is below the minimum (3)" — note
ALNUM-only, excluding the underscore — or an artifact substring, or the
words-per-second ceiling for audio longer than 1 s, or the unique-word ratio
below 50% for 6+ words. -/
def claimHallucination (text : List Char) (audio_duration_sec : ℚ) : Prop :=
  let text_lower := pyStrip (pyLower text)
  let words := pySplit text_lower
  (text_lower.filter isAlnumChar).length < 3
  ∨ (∃ h ∈ WHISPER_HALLUCINATIONS, containsSub h text_lower = true)
  ∨ (1 < audio_duration_sec ∧ 6 < (words.length : ℚ) / audio_duration_sec)
  ∨ (6 ≤ words.length ∧ (words.dedup.length : ℚ) / (words.length : ℚ) < 1/2)

/-- The same predicate with the first disjunct amended to count the
characters the code actually counts: the `\w` (word) characters — letters,
digits AND the underscore — of the lowercased text. -/
def specHallucination (text : List Char) (audio_duration_sec : ℚ) : Prop :=
  let text_lower := pyStrip (pyLower text)
  let words := pySplit text_lower
  (text_lower.filter isWordChar).length < 3
  ∨ (∃ h ∈ WHISPER_HALLUCINATIONS, containsSub h text_lower = true)
  ∨ (1 < audio_duration_sec ∧ 6 < (words.length : ℚ) / audio_duration_sec)
  ∨ (6 ≤ words.length ∧ (words.dedup.length : ℚ) / (words.length : ℚ) < 1/2)

/-! ## Concrete runs used in the analyses below

All states are reachable by the respective loops: an accumulating state's
window, counters and buffer are exactly what a matching frame sequence
produces. -/

/-- Capture parameters with the end-of-utterance chunk count configured
to 50 (a caller-chosen value of the `silence_chunks_end` parameter). -/
def c7Params : CapParams := { silence_chunks_end := 50 }

/-- An accumulating state after the seeding voiced frame and 14 silent
frames: the window holds 14 unvoiced verdicts, one more silent frame fills
it. -/
def c7State : CapState :=
  { buffer := [500], silent_count := 14, voice_detected := true,
    voice_chunks := 1, total_chunks := 15, wait_chunks := 0,
    recent_voice := List.replicate 14 false }

/-- Capture parameters as the listener's follow-up call uses them
(`min_sec=0.3`, listener.py line 335). -/
def c1Params : CapParams := { min_sec := 0.3 }

/-- A sealed utterance of 4800 samples (0.3 s) and 6 voiced chunks for which
no speculative submission ever completed usefully: `last_transcript` is empty
while only 5 voiced chunks arrived since the last submission (below the
reuse threshold of 6). -/
def c1State : StreamState :=
  { buffer := List.replicate 4800 0, silent_count := 5, voice_detected := true,
    voice_chunks := 6, total_chunks := 75, wait_chunks := 0,
    recent_voice := List.replicate 15 true, pending_snapshot := none,
    last_transcript := [], last_submit_offset := 0, voice_since_submit := 5 }

/-- An engine whose full-buffer transcription yields "bonjour exo". -/
def c1Engine : SttEngine := fun _ => .ok ("bonjour exo".data)

/-- A sealed utterance holding a good speculative transcript with only 2
voiced chunks since the last submission — the reuse case. -/
def c1wState : StreamState :=
  { buffer := List.replicate 4800 0, silent_count := 5, voice_detected := true,
    voice_chunks := 6, total_chunks := 75, wait_chunks := 0,
    recent_voice := List.replicate 15 true, pending_snapshot := none,
    last_transcript := "allume la lumière".data, last_submit_offset := 9600,
    voice_since_submit := 2 }

/-- A mid-capture state with a pending speculative job over a 4800-sample
(0.3 s) snapshot and no good speculative result yet. -/
def c2State : StreamState :=
  { buffer := List.replicate 4800 0, silent_count := 0, voice_detected := true,
    voice_chunks := 5, total_chunks := 75, wait_chunks := 0,
    recent_voice := [true, true, true], pending_snapshot := some (List.replicate 4800 0),
    last_transcript := [], last_submit_offset := 9600, voice_since_submit := 0 }

/-- A speculative job's completed result: non-empty genuine speech. -/
def c2Result : List Char := "allume la lumière".data

/-- An engine that transcribes every snapshot to `c2Result`. -/
def c2Engine : SttEngine := fun _ => .ok c2Result

/-- A sealed utterance (4801 samples, just over 0.3 s, 6 voiced chunks) with
no reusable speculative result and 6 voiced chunks since the last submission
— the full-re-transcription path is taken. -/
def c8Sealed : StreamState :=
  { buffer := List.replicate 4801 0, silent_count := 5, voice_detected := true,
    voice_chunks := 6, total_chunks := 76, wait_chunks := 0,
    recent_voice := List.replicate 10 true ++ [false], pending_snapshot := none,
    last_transcript := [], last_submit_offset := 0, voice_since_submit := 6 }

/-- An engine whose transcription call raises. -/
def c8Engine : SttEngine := fun _ => .error ()

/-! ## Helper lemmas -/

/-- A chain step of the hallucination filter: an early `return True` followed
by the rest is the disjunction of its condition with the rest. -/
theorem ite_true_or_eq (c : Prop) [Decidable c] (b : Bool) :
    (if c then true else b) = true ↔ c ∨ b = true := by
  split_ifs with h <;> simp [h]

/-- The hallucination verdict ignores the duration whenever it is at most
one second (the ratio heuristic is gated on `audio_duration_sec > 1.0`). -/
theorem hallu_dur_le_one (text : List Char) (d : ℚ) (hd : ¬ d > 1) :
    is_hallucination text d = is_hallucination text 0 := by
  simp only [is_hallucination]
  rw [if_neg hd, if_neg (show ¬ ((0:ℚ) > 1) by norm_num)]

/-- With `timeout_sec = 0.05` (and the default 16 kHz rate and 1024-sample
chunks), `int(timeout_sec * sample_rate / chunk_size)` is `0`. -/
theorem timeoutChunks_small_timeout :
    timeoutChunks { timeout_sec := some (1/20) } = some 0 := by
  rw [timeoutChunks]
  norm_num [pyInt]

/-- The default `max_chunks` value: `int(10.0 * 16000 / 1024) = 156`. -/
theorem maxChunks_default : maxChunks { timeout_sec := some (1/20) } = 156 := by
  rw [maxChunks]
  norm_num [pyInt, DEFAULT_MAX_UTTERANCE_SEC]
  rfl

/-- With a calibrated noise floor of `0` the adaptive branch is skipped and
the fixed default threshold is returned. -/
theorem effective_threshold_zero_floor :
    get_adaptive_threshold ⟨0, true⟩ DEFAULT_VOICE_THRESHOLD = 300 := by
  rw [get_adaptive_threshold, if_neg (by norm_num)]
  norm_num [DEFAULT_VOICE_THRESHOLD]

/-! ## The claims -/

/-- Claim C1, counterexample.  At seal time with `voice_since_submit = 5`,
below the reuse threshold of 6, the claim says the returned transcript
equals the last speculative result (here empty) and that no re-transcription
occurs; in fact, because the last speculative result is empty, one full
re-transcription runs (`final_calls = 1`) and its result "bonjour exo" —
not the speculative result — is returned. -/
theorem C1_counterexample :
    c1State.voice_since_submit < REUSE_VOICE_THRESHOLD ∧
    ("bonjour exo".data) ≠ c1State.last_transcript ∧
    sealFinish c1Params c1Engine c1State =
      .ok ("bonjour exo".data, c1State.buffer,
        some { audio_sec := 0.3, reused := false, final_calls := 1 }) := by
  refine ⟨by decide, by decide, ?_⟩
  have hlen : c1State.buffer.length = 4800 := by
    rw [show c1State.buffer = List.replicate 4800 0 from rfl, List.length_replicate]
  have hdur : streamDuration c1Params c1State = 0.3 := by
    rw [streamDuration, hlen]
    norm_num [c1Params]
  have hhallu : is_hallucination ("bonjour exo".data) (0.3 : ℚ) = false := by
    rw [hallu_dur_le_one ("bonjour exo".data) 0.3 (by norm_num)]
    decide
  unfold sealFinish
  rw [hdur]
  rw [if_neg (show ¬ ((0.3 : ℚ) < c1Params.min_sec ∨
      c1State.voice_chunks < DEFAULT_MIN_VOICE_CHUNKS) by
    push_neg
    exact ⟨by norm_num [c1Params], by decide⟩)]
  have hawait : awaitPending c1Engine c1State (0.3 : ℚ) = [] := by
    simp only [awaitPending, show c1State.pending_snapshot = none from rfl]
    rfl
  rw [hawait]
  rw [if_neg (by simp)]
  have htb : transcribeBuffer c1Engine c1State.buffer = .ok ("bonjour exo".data) := by
    rw [transcribeBuffer, hlen]
    rw [if_neg (by norm_num)]
    rfl
  rw [htb]
  simp only []
  rw [if_neg (by push_neg; exact ⟨by decide, by simp [hhallu]⟩)]

/-- Claim C1 (amended).  At seal time of an utterance that passes the
minimum-duration and minimum-voiced-chunk checks: if the last good
speculative result (after awaiting a still-pending job) is NON-EMPTY and
`voice_since_submit` is below `REUSE_VOICE_THRESHOLD`, the returned
transcript equals that speculative result and no re-transcription occurs
(`final_calls = 0`); otherwise exactly one final transcription is run over
the full sealed buffer (`final_calls = 1`), whose failure propagates and
whose result, when empty or hallucinated, is replaced by the speculative
result rather than the speculative result being discarded. -/
theorem C1_reuse_decision (p : CapParams) (engine : SttEngine) (st : StreamState)
    (hd : ¬ (streamDuration p st < p.min_sec ∨
             st.voice_chunks < DEFAULT_MIN_VOICE_CHUNKS)) :
    (awaitPending engine st (streamDuration p st) ≠ [] ∧
        st.voice_since_submit < REUSE_VOICE_THRESHOLD →
      sealFinish p engine st =
        .ok (awaitPending engine st (streamDuration p st), st.buffer,
          some { audio_sec := streamDuration p st, reused := true, final_calls := 0 })) ∧
    (¬ (awaitPending engine st (streamDuration p st) ≠ [] ∧
          st.voice_since_submit < REUSE_VOICE_THRESHOLD) →
      sealFinish p engine st =
        (transcribeBuffer engine st.buffer).map (fun t =>
          (if t = [] ∨ is_hallucination t (streamDuration p st) = true then
              awaitPending engine st (streamDuration p st) else t,
           st.buffer,
           some { audio_sec := streamDuration p st, reused := false, final_calls := 1 }))) := by
  constructor
  · intro h
    simp only [sealFinish, if_neg hd, if_pos h]
  · intro h
    simp only [sealFinish, if_neg hd, if_neg h]
    cases htb : transcribeBuffer engine st.buffer <;> simp [htb, Except.map]

/-- Claim C1, witness: the reuse branch of `C1_reuse_decision` at a concrete
sealed state with a non-empty speculative transcript and 2 voiced tail
chunks. -/
theorem C1_witness :
    ¬ (streamDuration c1Params c1wState < c1Params.min_sec ∨
       c1wState.voice_chunks < DEFAULT_MIN_VOICE_CHUNKS) ∧
    awaitPending c1Engine c1wState (streamDuration c1Params c1wState) ≠ [] ∧
    c1wState.voice_since_submit < REUSE_VOICE_THRESHOLD ∧
    sealFinish c1Params c1Engine c1wState =
      .ok ("allume la lumière".data, c1wState.buffer,
        some { audio_sec := streamDuration c1Params c1wState, reused := true,
               final_calls := 0 }) := by
  have hawait : awaitPending c1Engine c1wState (streamDuration c1Params c1wState) =
      ("allume la lumière".data) := by
    simp only [awaitPending, show c1wState.pending_snapshot = none from rfl]
    rfl
  have hlen : c1wState.buffer.length = 4800 := by
    rw [show c1wState.buffer = List.replicate 4800 0 from rfl, List.length_replicate]
  have hd : ¬ (streamDuration c1Params c1wState < c1Params.min_sec ∨
      c1wState.voice_chunks < DEFAULT_MIN_VOICE_CHUNKS) := by
    rw [streamDuration, hlen]
    push_neg
    exact ⟨by norm_num [c1Params], by decide⟩
  refine ⟨hd, by rw [hawait]; decide, by decide, ?_⟩
  have h := (C1_reuse_decision c1Params c1Engine c1wState hd).1
    ⟨by rw [hawait]; decide, by decide⟩
  rw [h, hawait]

/-- Claim C2 (code bug).  A speculative job completes during capture with
the non-empty, non-hallucinated result "allume la lumière" (its snapshot is
0.3 s of audio, so the engine is really invoked), yet the completion
handler leaves `last_transcript` empty and merely clears the future: the
evaluation of `is_hallucination(result, duration)` at line 188 reads the
local `duration`, which is first assigned only after the loop (line 197),
raising `UnboundLocalError`, which the bare `except` swallows — the result
is silently dropped, contradicting the claim that it is kept. -/
theorem C2_completed_result_dropped :
    transcribeBuffer c2Engine (List.replicate 4800 0) = .ok c2Result ∧
    (pollCompleted c2State (.ok c2Result)).last_transcript = [] ∧
    (pollCompleted c2State (.ok c2Result)).pending_snapshot = none ∧
    c2Result ≠ [] ∧
    is_hallucination c2Result (0.3 : ℚ) = false := by
  refine ⟨?_, rfl, rfl, by decide, ?_⟩
  · rw [transcribeBuffer, List.length_replicate]
    rw [if_neg (by norm_num)]
    rfl
  · rw [hallu_dur_le_one c2Result 0.3 (by norm_num)]
    decide

/-- Claim C3 (code bug).  Three text inputs with distinct session ids drive
`active_sessions` to 3 entries while `max_concurrent_sessions` is 2: the cap
field is configured in `__init__` but never consulted by `_on_text_input`
(nor by `_audio_processing_loop`), so the number of concurrently stored
active sessions exceeds the cap. -/
theorem C3_processing_cap_not_enforced :
    (on_text_input (on_text_input (on_text_input initCore
        ("allume la lumière".data) .pi_zero ("s1".data) 0)
        ("éteins la musique".data) .pi_5 ("s2".data) 1)
        ("quelle heure".data) .unknown ("s3".data) 2).max_concurrent_sessions = 2 ∧
    (on_text_input (on_text_input (on_text_input initCore
        ("allume la lumière".data) .pi_zero ("s1".data) 0)
        ("éteins la musique".data) .pi_5 ("s2".data) 1)
        ("quelle heure".data) .unknown ("s3".data) 2).active_sessions.length = 3 ∧
    (on_text_input (on_text_input (on_text_input initCore
        ("allume la lumière".data) .pi_zero ("s1".data) 0)
        ("éteins la musique".data) .pi_5 ("s2".data) 1)
        ("quelle heure".data) .unknown ("s3".data) 2).state = .processing := by
  refine ⟨rfl, ?_, rfl⟩
  decide

/-- Claim C4, counterexample.  A noise floor of `0` is a perfectly
calibratable value (29 successful all-zero reads and one failed read set the
calibrated flag with a median of 0), yet the effective threshold is NOT
monotone across it: at fixed threshold 300 the floor 0 yields 300 while the
larger floor 30 yields only 150. -/
theorem C4_counterexample :
    calibrate_noise_floor (List.replicate 29 (some 0) ++ [none]) ⟨0, false⟩ =
      { noise_floor := 0, noise_calibrated := true } ∧
    calibrate_noise_floor (List.replicate 29 (some 30) ++ [none]) ⟨0, false⟩ =
      { noise_floor := 30, noise_calibrated := true } ∧
    (0 : ℚ) ≤ 30 ∧
    ¬ (get_adaptive_threshold { noise_floor := 0, noise_calibrated := true } 300 ≤
       get_adaptive_threshold { noise_floor := 30, noise_calibrated := true } 300) := by
  refine ⟨by decide, by decide, by norm_num, ?_⟩
  have e0 : get_adaptive_threshold { noise_floor := 0, noise_calibrated := true } 300 = 300 := by
    rw [get_adaptive_threshold, if_neg (by norm_num)]
  have e30 : get_adaptive_threshold { noise_floor := 30, noise_calibrated := true } 300 = 150 := by
    rw [get_adaptive_threshold, if_pos ⟨rfl, by norm_num⟩]
    norm_num [ADAPTIVE_MULTIPLIER]
  rw [e0, e30]; norm_num

/-- Claim C4 (amended).  For every fixed baseline `f > 0` and every
calibrated noise floor, the effective threshold lies within
`[f * 0.5, f * 2.5]`; and the threshold is monotone non-decreasing in the
noise floor on the POSITIVE floors (monotonicity fails across floor `0`,
where the code falls back to the fixed threshold — see the
counterexample). -/
theorem C4_threshold_range_and_monotone (f nf nf1 nf2 : ℚ)
    (hf : 0 < f) (h1 : 0 < nf1) (h12 : nf1 ≤ nf2) :
    (f * 0.5 ≤ get_adaptive_threshold ⟨nf, true⟩ f ∧
     get_adaptive_threshold ⟨nf, true⟩ f ≤ f * 2.5) ∧
    get_adaptive_threshold ⟨nf1, true⟩ f ≤ get_adaptive_threshold ⟨nf2, true⟩ f := by
  have h2 : 0 < nf2 := lt_of_lt_of_le h1 h12
  have hm : (0:ℚ) ≤ ADAPTIVE_MULTIPLIER := by norm_num [ADAPTIVE_MULTIPLIER]
  unfold get_adaptive_threshold
  constructor
  · by_cases h : nf > 0
    · rw [if_pos ⟨rfl, h⟩]
      refine ⟨le_max_right _ _, max_le (le_trans (min_le_right _ _) le_rfl) ?_⟩
      nlinarith
    · rw [if_neg (by simp [h])]
      constructor <;> nlinarith
  · rw [if_pos ⟨rfl, h1⟩, if_pos ⟨rfl, h2⟩]
    exact max_le_max (min_le_min (mul_le_mul_of_nonneg_right h12 hm) le_rfl) le_rfl

/-- Claim C4, witness: the range at floor 0 and the monotone step from floor
100 to 200, at fixed threshold 300. -/
theorem C4_witness :
    (0:ℚ) < 300 ∧ (0:ℚ) < 100 ∧ (100:ℚ) ≤ 200 ∧
    (((300:ℚ) * 0.5 ≤ get_adaptive_threshold ⟨0, true⟩ 300 ∧
      get_adaptive_threshold ⟨0, true⟩ 300 ≤ 300 * 2.5) ∧
     get_adaptive_threshold ⟨100, true⟩ 300 ≤ get_adaptive_threshold ⟨200, true⟩ 300) :=
  ⟨by norm_num, by norm_num, by norm_num,
   C4_threshold_range_and_monotone 300 0 100 200 (by norm_num) (by norm_num) (by norm_num)⟩

/-- Claim C5, counterexample.  On the input "a_b" the claim's condition
holds — the alnum-only count is 2 (< 3), and no other disjunct applies —
yet `is_hallucination` returns `False`: the code counts `\w` characters,
and the underscore is a `\w` character, giving a count of 3. -/
theorem C5_counterexample :
    is_hallucination ("a_b".data) 0 = false ∧ claimHallucination ("a_b".data) 0 := by
  constructor
  · decide
  · left; decide

/-- Claim C5 (amended).  `is_hallucination(text, d)` returns `True` iff at
least one of: the WORD-character count (alphanumerics or underscore) of the
lowercased text is below 3; the lowercased text contains a configured
artifact phrase as a substring; `d > 1` and the words-per-second ratio
exceeds 6; or the transcript has at least 6 words and the unique-word ratio
is below 50%. -/
theorem C5_filter_characterization (text : List Char) (dur : ℚ) :
    is_hallucination text dur = true ↔ specHallucination text dur := by
  simp only [is_hallucination, specHallucination, ite_true_or_eq]
  constructor
  · rintro (h1 | h2 | h3 | h4 | h5)
    · exact Or.inl h1
    · simp only [List.any_eq_true] at h2
      exact Or.inr (Or.inl h2)
    · by_cases hd : dur > 1
      · simp only [if_pos hd, decide_eq_true_eq] at h3
        exact Or.inr (Or.inr (Or.inl ⟨hd, h3⟩))
      · simp [if_neg hd] at h3
    · exact Or.inr (Or.inr (Or.inr h4))
    · simp at h5
  · rintro (h1 | h2 | h3 | h4)
    · exact Or.inl h1
    · refine Or.inr (Or.inl ?_)
      simp only [List.any_eq_true]
      exact h2
    · refine Or.inr (Or.inr (Or.inl ?_))
      simp only [if_pos h3.1, decide_eq_true_eq]
      exact h3.2
    · exact Or.inr (Or.inr (Or.inr (Or.inl h4)))

set_option maxRecDepth 8000 in
/-- Claim C6 (code bug).  With the positive caller timeout
`timeout_sec = 0.05` s (default rate 16 kHz, 1024-sample chunks),
`int(timeout_sec * sample_rate / chunk_size) = 0` is falsy, so the timeout
check never fires: after 200 sub-threshold frames (12.8 s of audio, far past
the 0.05 s deadline) `capture_utterance` has not returned — it is still
waiting for voice (`voice_detected` false, buffer never seeded,
`wait_chunks = 200`), instead of returning `b""` as the claim and the
docstring state.  (The never-leaves-WaitingForVoice half of the claim is
visible in the final state.) -/
theorem C6_tiny_timeout_never_returns :
    timeoutChunks { timeout_sec := some (1/20) } = some 0 ∧
    capture_utterance ⟨0, true⟩ { timeout_sec := some (1/20) }
        (List.replicate 200 (some ⟨[0], 0⟩)) =
      .running { initCapState with wait_chunks := 200 } := by
  refine ⟨timeoutChunks_small_timeout, ?_⟩
  show capRun { timeout_sec := some (1/20) }
      (get_adaptive_threshold ⟨0, true⟩ DEFAULT_VOICE_THRESHOLD)
      (timeoutChunks { timeout_sec := some (1/20) })
      (maxChunks { timeout_sec := some (1/20) })
      (List.replicate 200 (some ⟨[0], 0⟩)) initCapState = _
  rw [effective_threshold_zero_floor, timeoutChunks_small_timeout, maxChunks_default]
  decide

/-- Claim C7, counterexample.  With `silence_chunks_end` configured to 50,
in the accumulating state `c7State` one more silent frame fills the sliding
window with 15 unvoiced verdicts (voice ratio 0, below
`SILENCE_END_RATIO`), and the consecutive-silence counter (15) is still
below 50 — per the claim either condition alone seals, so this frame should
seal — yet `capStep` does NOT seal: the window rule is additionally gated on
`voice_chunks >= DEFAULT_MIN_VOICE_CHUNKS`, and only one voiced chunk has
been seen. -/
theorem C7_counterexample :
    (pushWindow c7State.recent_voice false).length = SILENCE_WINDOW_SIZE ∧
    voiceRatio (pushWindow c7State.recent_voice false) < SILENCE_END_RATIO ∧
    c7State.silent_count + 1 < c7Params.silence_chunks_end ∧
    (capStep c7Params 300 none c7State (some ⟨[0], 0⟩)).isSealed = false := by
  have hratio : voiceRatio (pushWindow c7State.recent_voice false) < SILENCE_END_RATIO := by
    have hw : pushWindow c7State.recent_voice false = List.replicate 15 false := by decide
    rw [hw, voiceRatio]
    norm_num [ SILENCE_END_RATIO, List.filter_replicate]
  refine ⟨by decide, hratio, by decide, ?_⟩
  have hne : ¬ (c7State.voice_detected = false) := by decide
  simp only [capStep, if_neg hne]
  rw [if_neg (by decide), if_neg (by decide)]
  rfl

/-- Claim C7 (amended).  While accumulating, processing a frame seals the
utterance iff EITHER the frame is silent and the consecutive-silence counter
(after the update) reaches `silence_chunks_end`, OR the total voiced-chunk
count has reached `DEFAULT_MIN_VOICE_CHUNKS` AND the sliding window is full
AND its voiced fraction is below `SILENCE_END_RATIO` — i.e. the soft window
rule carries an additional minimum-voiced-chunks gate the claim omits. -/
theorem C7_seal_characterization (p : CapParams) (eff : ℚ) (toc : Option Nat)
    (st : CapState) (ch : Chunk) (h : st.voice_detected = true) :
    (capStep p eff toc st (some ch)).isSealed = true ↔
      (¬ (ch.energy ≥ eff) ∧
         p.silence_chunks_end ≤ (accumulate st ch eff).silent_count) ∨
      (DEFAULT_MIN_VOICE_CHUNKS ≤ (accumulate st ch eff).voice_chunks ∧
       SILENCE_WINDOW_SIZE ≤ (accumulate st ch eff).recent_voice.length ∧
       voiceRatio (accumulate st ch eff).recent_voice < SILENCE_END_RATIO) := by
  have hne : ¬ (st.voice_detected = false) := by simp [h]
  simp only [capStep, if_neg hne]
  split_ifs with h1 h2
  · simp [CapStepRes.isSealed, h1]
  · simp [CapStepRes.isSealed, h2]
  · simp only [CapStepRes.isSealed]
    constructor
    · intro hh; exact absurd hh (by simp)
    · rintro (hc | hw)
      · exact absurd hc h1
      · exact absurd hw h2

/-- Claim C7, witness: with the default `silence_chunks_end = 5`, a fifth
consecutive silent frame seals, via the consecutive-silence disjunct of
`C7_seal_characterization`. -/
theorem C7_witness :
    (({ buffer := [500], silent_count := 4, voice_detected := true,
        voice_chunks := 1, total_chunks := 5, wait_chunks := 0,
        recent_voice := List.replicate 4 false } : CapState)).voice_detected = true ∧
    (capStep {} 300 none
      { buffer := [500], silent_count := 4, voice_detected := true,
        voice_chunks := 1, total_chunks := 5, wait_chunks := 0,
        recent_voice := List.replicate 4 false }
      (some ⟨[0], 0⟩)).isSealed = true :=
  ⟨rfl,
   (C7_seal_characterization {} 300 none
      { buffer := [500], silent_count := 4, voice_detected := true,
        voice_chunks := 1, total_chunks := 5, wait_chunks := 0,
        recent_voice := List.replicate 4 false }
      ⟨[0], 0⟩ rfl).mpr
     (Or.inl ⟨by norm_num, by decide⟩)⟩

/-- Claim C8 (code bug).  When the reuse branch is not taken (here:
`voice_since_submit = 6` and no speculative transcript), the final
full-buffer re-transcription is invoked WITHOUT a `try/except`: an engine
exception propagates out of the seal logic (`.error ()`) instead of being
treated as an empty transcript — and `ExoListener.start` catches only
`KeyboardInterrupt`, so it would terminate the listening loop. -/
theorem C8_final_transcription_error_escapes :
    sealFinish c1Params c8Engine c8Sealed = .error () := by
  have hlen : c8Sealed.buffer.length = 4801 := by
    rw [show c8Sealed.buffer = List.replicate 4801 0 from rfl, List.length_replicate]
  have hdur : streamDuration c1Params c8Sealed = 4801/16000 := by
    rw [streamDuration, hlen]
    norm_num [c1Params]
  unfold sealFinish
  rw [hdur]
  rw [if_neg (show ¬ ((4801/16000 : ℚ) < c1Params.min_sec ∨
      c8Sealed.voice_chunks < DEFAULT_MIN_VOICE_CHUNKS) by
    push_neg
    exact ⟨by norm_num [c1Params], by decide⟩)]
  have hawait : awaitPending c8Engine c8Sealed (4801/16000 : ℚ) = [] := by
    simp only [awaitPending, show c8Sealed.pending_snapshot = none from rfl]
    rfl
  rw [hawait]
  rw [if_neg (by simp)]
  have htb : transcribeBuffer c8Engine c8Sealed.buffer = .error () := by
    rw [transcribeBuffer, hlen]
    rw [if_neg (by norm_num)]
    rfl
  rw [htb]

/-- Claim C9.  "Exo, allume la lumière" contains the wake word and its
extracted command is "allume la lumière"; bare "Exo" extracts the empty
command, which (having fewer than 2 tokens) is NOT dispatched immediately —
the listener takes the bounded follow-up branch instead. -/
theorem C9_wake_extraction :
    contains_wake_word ("Exo, allume la lumière".data) = true ∧
    extract_command_after_wake ("Exo, allume la lumière".data) = ("allume la lumière".data) ∧
    extract_command_after_wake ("Exo".data) = [] ∧
    listenerDispatchesImmediately (extract_command_after_wake ("Exo".data)) = false := by
  decide

/-- Claim C10.  Any transcript classified as a hallucination (with no
duration supplied, i.e. duration 0) never triggers wake-word detection:
`contains_wake_word` consults `is_hallucination` first and returns `False`. -/
theorem C10_hallucination_blocks_wake (text : List Char)
    (h : is_hallucination text 0 = true) : contains_wake_word text = false := by
  simp [contains_wake_word, h]

/-- Claim C10, witness: "sous-titres exo" contains the artifact phrase
"sous-titres" (hence is a hallucination) AND the wake-word variant "exo" as
a substring, yet `contains_wake_word` rejects it. -/
theorem C10_witness :
    is_hallucination ("sous-titres exo".data) 0 = true ∧
    containsSub ("exo".data) (pyStrip (pyLower ("sous-titres exo".data))) = true ∧
    contains_wake_word ("sous-titres exo".data) = false :=
  ⟨by decide, by decide, C10_hallucination_blocks_wake ("sous-titres exo".data) (by decide)⟩

end Exo
